import Mathlib

/-!
Verification of the OutletBackend content-acquisition pipeline.

The repository implements a web-proxy/"learning" backend in three variants
(a serverless puppeteer handler `api/index.js`, a persistent puppeteer
server `server.js`, and a direct-fetch axios/cheerio server).  This file
gives a shallow embedding of the components the specification talks about:
the SSRF guard `isPrivateIP`, the outbound header builder, the throttle
delay computation, the error classifier, the URL rewriter with its
`encodeURIComponent` round trip, the method dispatch, and the
cleanup-on-every-exit-path discipline of the browser renderer.
-/

namespace Outlet

/-! ## String primitives

The JS code tests hostnames with anchored regular expressions
(`/^127\./`, `/^::1$/`, `/^localhost$/i`, ...), and error messages with
`String.prototype.includes`.  We embed those operations directly on
character lists so that proofs can compute with them. -/

/-- Boolean equality of character lists (JS string equality). -/
def eqChars : List Char → List Char → Bool
  | [], [] => true
  | a :: as, b :: bs => a == b && eqChars as bs
  | _, _ => false

/-- `leadsWith p s` : the character list `s` starts with the pattern `p`
(an anchored `/^pat/` regex match). -/
def leadsWith : List Char → List Char → Bool
  | [], _ => true
  | _ :: _, [] => false
  | p :: ps, c :: cs => p == c && leadsWith ps cs

/-- `strLeads s p` : the string `s` starts with the literal pattern `p`. -/
def strLeads (s p : String) : Bool := leadsWith p.toList s.toList

/-- Exact string match (`/^pat$/`). -/
def strIs (s p : String) : Bool := eqChars s.toList p.toList

/-- Case-insensitive exact match (`/^pat$/i`). -/
def lcEq (s p : String) : Bool :=
  eqChars (s.toList.map Char.toLower) (p.toList.map Char.toLower)

/-- JS `String.prototype.includes`: `pat` occurs as a contiguous substring
of `s`. -/
def hasSubstr (s pat : String) : Bool :=
  (List.range (s.toList.length + 1)).any fun i => leadsWith pat.toList (s.toList.drop i)

/-- JS falsiness of a string value: only the empty string is falsy. -/
def strIsEmpty (v : String) : Bool := v.toList.isEmpty

/-! ## SSRFGuard — `isPrivateIP` (src/api/index.js:19-32, src/server.js:271-284,
src/unnamed/part_000:344-359; the three copies are identical) -/

/-- The `/^172\.(1[6-9]|2[0-9]|3[0-1])\./` alternation: `172.16.` … `172.31.`. -/
def range172 (s : String) : Bool :=
  ["172.16.", "172.17.", "172.18.", "172.19.", "172.20.", "172.21.", "172.22.",
   "172.23.", "172.24.", "172.25.", "172.26.", "172.27.", "172.28.", "172.29.",
   "172.30.", "172.31."].any fun p => strLeads s p

/-- `isPrivateIP(hostname)`: `privatePatterns.some(p => p.test(hostname))` with
the eight anchored patterns of the source. -/
def isPrivateIP (hostname : String) : Bool :=
  lcEq hostname "localhost" ||
  strLeads hostname "127." ||
  strLeads hostname "192.168." ||
  strLeads hostname "10." ||
  range172 hostname ||
  strIs hostname "::1" ||
  strLeads hostname "fc00:" ||
  strLeads hostname "fe80:"

/-- The guard step of every request handler: a hostname classified private is
rejected with HTTP 403 before any outbound connection; otherwise the pipeline
proceeds (`none`). -/
def ssrfCheck (hostname : String) : Option Nat :=
  if isPrivateIP hostname then some 403 else none

/-- Node's WHATWG `URL` class (external library) serializes the hostname of a
URL whose host is an IPv6 address literal with enclosing square brackets:
`new URL("http://[::1]/").hostname === "[::1]"`.  Modelled from the spec /
the URL Standard's host serializer. -/
def ipv6Hostname (addr : String) : String := "[" ++ addr ++ "]"

/-! ## HeaderSynthesizer — `requestHeaders` (src/unnamed/part_000:107-144)

The direct-fetch strategy builds a plain JS object of outbound headers:
a fixed browser-like template, then one conditional assignment per
forwarded caller header.  A JS object keeps insertion order, updates a
present key in place and appends an absent one, which is exactly the
behaviour of `setHdr` on an association list. -/

/-- Header lookup in an ordered header object (`obj[k]`). -/
def getHdr (hs : List (String × String)) (k : String) : Option String :=
  match hs with
  | [] => none
  | (k', v) :: t => if k' = k then some v else getHdr t k

/-- Header assignment `obj[k] = v`: replaces the value of a present key in
place, appends a fresh entry otherwise. -/
def setHdr (hs : List (String × String)) (k v : String) : List (String × String) :=
  match hs with
  | [] => [(k, v)]
  | (k', v') :: t => if k' = k then (k', v) :: t else (k', v') :: setHdr t k v

/-- `if (req.headers[h]) { requestHeaders[K] = req.headers[h] }`: the
assignment runs only when the inbound header is present (JS truthiness of a
header value; a present header is modelled as `some`). -/
def applyFwd (hs : List (String × String)) (k : String) (o : Option String) :
    List (String × String) :=
  match o with
  | some v => setHdr hs k v
  | none => hs

/-- The caller headers the direct-fetch strategy inspects, in source order. -/
structure InboundHeaders where
  userAgent : Option String
  accept : Option String
  acceptLanguage : Option String
  cookie : Option String
  referer : Option String
  authorization : Option String

/-- The fixed "realistic browser" template (src/unnamed/part_000:107-124). -/
def templateHeaders : List (String × String) :=
  [("User-Agent", "Mozilla/5.0 (Windows NT 10.0; Win64; x64) AppleWebKit/537.36 (KHTML, like Gecko) Chrome/120.0.0.0 Safari/537.36"),
   ("Accept", "text/html,application/xhtml+xml,application/xml;q=0.9,image/avif,image/webp,image/apng,*/*;q=0.8,application/signed-exchange;v=b3;q=0.7"),
   ("Accept-Language", "en-US,en;q=0.9"),
   ("Accept-Encoding", "gzip, deflate, br"),
   ("Connection", "keep-alive"),
   ("Upgrade-Insecure-Requests", "1"),
   ("Sec-Fetch-Dest", "document"),
   ("Sec-Fetch-Mode", "navigate"),
   ("Sec-Fetch-Site", "none"),
   ("Sec-Fetch-User", "?1"),
   ("Cache-Control", "max-age=0"),
   ("DNT", "1"),
   ("Sec-Ch-Ua", "\"Not_A Brand\";v=\"8\", \"Chromium\";v=\"120\", \"Google Chrome\";v=\"120\""),
   ("Sec-Ch-Ua-Mobile", "?0"),
   ("Sec-Ch-Ua-Platform", "\"Windows\"")]

/-- The outbound header set: the template followed by the six conditional
forwarding assignments, in source order (src/unnamed/part_000:126-144). -/
def requestHeaders (inb : InboundHeaders) : List (String × String) :=
  applyFwd
    (applyFwd
      (applyFwd
        (applyFwd
          (applyFwd
            (applyFwd templateHeaders "User-Agent" inb.userAgent)
            "Accept" inb.accept)
          "Accept-Language" inb.acceptLanguage)
        "Cookie" inb.cookie)
      "Referer" inb.referer)
    "Authorization" inb.authorization

/-! ## ThrottleController (src/unnamed/part_000:146-151, src/api/index.js:35-41)

`Math.floor(Math.random() * (THROTTLE_MAX_MS - THROTTLE_MIN_MS)) + THROTTLE_MIN_MS`,
with `Math.random()` a sample `r` with `0 ≤ r < 1`, modelled as a rational. -/

/-- The computed throttle delay for a random sample `r`. -/
def throttleDelay (r : ℚ) (minMs maxMs : ℕ) : ℤ :=
  ⌊r * ((maxMs : ℚ) - (minMs : ℚ))⌋ + (minMs : ℤ)

/-- `applyThrottling`: when throttling is enabled the handler awaits a
`setTimeout` of exactly `throttleDelay`; when disabled it performs no wait at
all.  The returned value is the waited duration in milliseconds; the function
is total (the source path contains no `throw`). -/
def applyThrottling (enabled : Bool) (r : ℚ) (minMs maxMs : ℕ) : ℤ :=
  if enabled then throttleDelay r minMs maxMs else 0

/-! ## ErrorClassifier (src/api/index.js:200-224)

The catch block starts from `statusCode = 500` / a generic message and
overrides both on the first matching `error.message.includes(...)` test of
an if/else-if chain. -/

/-- The classifier: one `(status, message)` per error message. -/
def classifyError (msg : String) : Nat × String :=
  if hasSubstr msg "Navigation timeout" then
    (504, "Page load timeout. The website is taking too long to respond.")
  else if hasSubstr msg "net::ERR_NAME_NOT_RESOLVED" then
    (404, "Website not found. Please check the URL.")
  else if hasSubstr msg "net::ERR_CONNECTION_REFUSED" then
    (503, "Connection refused. The website may be down.")
  else if hasSubstr msg "net::ERR_ABORTED" then
    (403, "Request was aborted. The website may have blocked the request.")
  else if hasSubstr msg "Protocol error" then
    (502, "Protocol error occurred while loading the page.")
  else if hasSubstr msg "Target page, context or browser has been closed" then
    (408, "Browser session expired. Please try again.")
  else
    (500, "Failed to learn from the requested website")

/-! ## Method dispatch (src/api/index.js:44-58, src/server.js:116/296-301) -/

/-- Outcome of the serverless handler's method checks, before any other work. -/
inductive DispatchResult where
  | corsPreflight : Nat → DispatchResult
  | methodNotAllowed : Nat → List String → DispatchResult
  | proceed : DispatchResult
deriving DecidableEq, Repr

/-- The serverless handler's dispatch: `OPTIONS` is answered 200 as a CORS
preflight first; then any method other than `GET` is answered 405 with
`allowedMethods: ['GET']`; `GET` proceeds into the pipeline. -/
def methodDispatch (method : String) : DispatchResult :=
  if method = "OPTIONS" then .corsPreflight 200
  else if method ≠ "GET" then .methodNotAllowed 405 ["GET"]
  else .proceed

/-- The persistent Express server registers only `app.get('/learn', ...)`.
Express's router dispatches `HEAD` requests to `app.get` handlers
(`Route._handles_method` rewrites `head` to `get`) and answers `OPTIONS`
itself with an automatic 200/`Allow` response for a path that has routes;
a request to `/learn` with any other non-GET method matches no route and
falls through to the terminal 404 handler (src/server.js:296-301).
`none` means the learn handler runs. -/
def expressLearnStatus (method : String) : Option Nat :=
  if method = "GET" ∨ method = "HEAD" then none
  else if method = "OPTIONS" then some 200
  else some 404

/-! ## BrowserRenderer cleanup (src/api/index.js:237-254, src/server.js:258-267)

The serverless handler's `finally` block closes the page and then the
browser, each `close()` wrapped in its own `try { } catch (e) { console.warn }`.
`Except String` models "this operation may throw"; a JS `finally` block that
itself threw would replace the handler's outcome. -/

/-- What has happened by the time control reaches the `finally` block, and
whether each pending `close()` would fail. -/
structure CleanupEnv where
  pageOpened : Bool
  browserOpened : Bool
  pageCloseFails : Bool
  browserCloseFails : Bool

/-- The outcome the try/catch part of the handler decided on: a 200 with the
rendered HTML, or a classified error response. -/
inductive Outcome where
  | success : String → Outcome
  | failure : Nat → Outcome
deriving DecidableEq, Repr

/-- `await x.close()`: throws iff the close fails. -/
def closeOp (fails : Bool) : Except String Unit :=
  if fails then .error "close failed" else .ok ()

/-- `try { await x.close() } catch (e) { console.warn(...) }`: never throws;
returns the warning lines it logged. -/
def tryCloseLogged (fails : Bool) : List String :=
  match closeOp fails with
  | .ok _ => []
  | .error e => ["Warning: Could not close: " ++ e]

/-- What the `finally` block did: which closes were attempted and what was
logged. -/
structure CleanupReport where
  pageCloseAttempted : Bool
  browserCloseAttempted : Bool
  logs : List String
deriving DecidableEq, Repr

/-- The `finally` block of the serverless handler: `if (page) { try close }`
then `if (browser) { try close }`.  The result lives in `Except String` to
record that a cleanup step could in principle throw out of the block; every
fallible close is wrapped, so the block only ever returns `.ok`. -/
def runCleanup (env : CleanupEnv) : Except String CleanupReport :=
  let pageStep := if env.pageOpened then (true, tryCloseLogged env.pageCloseFails)
                  else (false, [])
  let browserStep := if env.browserOpened then (true, tryCloseLogged env.browserCloseFails)
                     else (false, [])
  .ok ⟨pageStep.1, browserStep.1, pageStep.2 ++ browserStep.2⟩

/-- `try { ... } catch { ... } finally { cleanup }`: the response the caller
sees is the try/catch outcome unless the `finally` block itself throws, in
which case the thrown error would replace it (as a 500 from the platform). -/
def handlerResult (outcome : Outcome) (env : CleanupEnv) : Outcome × CleanupReport :=
  match runCleanup env with
  | .ok r => (outcome, r)
  | .error _ => (Outcome.failure 500, ⟨false, false, []⟩)

/-! ## URLRewriter (src/unnamed/part_000:271-342)

`rewriteUrls($, baseUrl, req)` runs five cheerio passes: `a[href]`,
`form[action]`, `img[src]`, `script[src]`, `link[href]`.  Each pass reads
one attribute, and for `img`/`script`/`link` skips `data:` URIs; the value
is resolved with `new URL(value, baseUrl).href` (a throwing parse is caught
per attribute and skipped) and replaced by
`proxyBase + encodeURIComponent(absoluteUrl)`.

The document is modelled as a list of elements, each carrying the one
attribute its selector reads; URL resolution against the base is the
external WHATWG library, passed in as a `resolve` function returning `none`
where `new URL` would throw. -/

inductive Tag where
  | a | form | img | script | link | other
deriving DecidableEq, Repr

/-- One element matched by a selector: its tag and the selected attribute's
value (`href`/`action`/`src`), when the attribute is present. -/
structure Elem where
  tag : Tag
  attr? : Option String
deriving DecidableEq, Repr

/-- ECMA-262 `encodeURIComponent` leaves `A–Z a–z 0–9 - _ . ! ~ * ' ( )`
unescaped and percent-encodes every other character. -/
def isUnreservedECMA (c : Char) : Bool :=
  c.isAlpha || c.isDigit ||
  c == '-' || c == '_' || c == '.' || c == '!' || c == '~' || c == '*' ||
  c == '\'' || c == '(' || c == ')'

/-- Upper-case hexadecimal digit of a value below 16. -/
def hexDigit (n : Nat) : Char :=
  if n < 10 then Char.ofNat ('0'.toNat + n) else Char.ofNat ('A'.toNat + n - 10)

/-- Value of a hexadecimal digit character (codepoints 48–57 are `0`–`9`,
65–70 are `A`–`F`, 97–102 are `a`–`f`). -/
def hexVal (c : Char) : Option Nat :=
  let n := c.toNat
  if 48 ≤ n ∧ n ≤ 57 then some (n - 48)
  else if 65 ≤ n ∧ n ≤ 70 then some (n - 55)
  else if 97 ≤ n ∧ n ≤ 102 then some (n - 87)
  else none

/-- `encodeURIComponent` on one character (single-byte escape; faithful for
the ASCII output of the URL serializer). -/
def encodeChar (c : Char) : List Char :=
  if isUnreservedECMA c then [c]
  else ['%', hexDigit (c.toNat / 16), hexDigit (c.toNat % 16)]

def encodeList : List Char → List Char
  | [] => []
  | c :: cs => encodeChar c ++ encodeList cs

/-- JS `encodeURIComponent` (on ASCII input). -/
def encodeURIComponent (s : String) : String := ⟨encodeList s.toList⟩

/-- `decodeURIComponent`'s percent-decoding on a character list; `none` on a
malformed escape. -/
def decodeChars : List Char → Option (List Char)
  | [] => some []
  | c :: rest =>
    if c = '%' then
      match rest with
      | h :: l :: rest2 =>
        match hexVal h, hexVal l with
        | some hv, some lv => (decodeChars rest2).map (Char.ofNat (16 * hv + lv) :: ·)
        | _, _ => none
      | _ => none
    else (decodeChars rest).map (c :: ·)

/-- JS `decodeURIComponent` (on single-byte escapes). -/
def decodeURIComponent (s : String) : Option String :=
  (decodeChars s.toList).map fun l => ⟨l⟩

/-- One attribute rewrite, by tag.  `a[href]` and `form[action]` rewrite any
truthy value that resolves (src/unnamed/part_000:278-302 — no `data:` test);
`img[src]`, `script[src]`, `link[href]` additionally skip `data:` URIs
(src/unnamed/part_000:305-341).  A value `new URL` rejects (`resolve` =
`none`) is left untouched — the per-attribute `try/catch` only logs. -/
def rewriteAttr (resolve : String → Option String) (proxyBase : String)
    (t : Tag) (v : String) : String :=
  match t with
  | .a | .form =>
    if strIsEmpty v then v
    else
      match resolve v with
      | some abs => proxyBase ++ encodeURIComponent abs
      | none => v
  | .img | .script | .link =>
    if strIsEmpty v || strLeads v "data:" then v
    else
      match resolve v with
      | some abs => proxyBase ++ encodeURIComponent abs
      | none => v
  | .other => v

/-- The whole rewrite pass over the document.  The five source passes touch
disjoint element sets (selected by tag), so they amount to one traversal
applying `rewriteAttr`; elements without the selected attribute are not
matched by the selectors and stay untouched. -/
def rewriteUrls (resolve : String → Option String) (proxyBase : String)
    (doc : List Elem) : List Elem :=
  doc.map fun e =>
    match e.attr? with
    | none => e
    | some v => ⟨e.tag, some (rewriteAttr resolve proxyBase e.tag v)⟩

/-- `${protocol}://${host}/proxy?url=` (src/unnamed/part_000:273-275). -/
def proxyBaseOf (protocol host : String) : String :=
  protocol ++ "://" ++ host ++ "/proxy?url="

/-- Scheme detector for the concrete resolver below: an ASCII-alpha run
directly followed by `:`. -/
def schemeEnd : List Char → Bool
  | [] => false
  | c :: cs => if c = ':' then true else if c.isAlpha then schemeEnd cs else false

def hasScheme (s : String) : Bool :=
  match s.toList with
  | [] => false
  | c :: cs => c.isAlpha && schemeEnd cs

/-- Modelled from the WHATWG URL library (the external `new URL(ref, base)`
call), restricted to the shapes used in concrete witnesses: a reference
carrying a scheme is already absolute and serializes to itself; a plain
relative path is joined to the example origin. -/
def resolveEx (ref : String) : Option String :=
  if hasScheme ref then some ref
  else if strIsEmpty ref then none
  else some ("https://example.com/" ++ ref)

/-! ## Helper lemmas -/

/-- A string that starts with a non-empty pattern is non-empty. -/
theorem strLeads_not_empty (v p : String) (c : Char) (t : List Char)
    (hp : p.toList = c :: t) (h : strLeads v p = true) : strIsEmpty v = false := by
  unfold strLeads at h
  rw [hp] at h
  unfold strIsEmpty
  cases hv : v.toList with
  | nil => rw [hv] at h; simp [leadsWith] at h
  | cons a l => simp

/-- Hexadecimal encode/decode of one digit. -/
theorem hexVal_hexDigit : ∀ n < 16, hexVal (hexDigit n) = some n := by decide

/-- Characters left unescaped by `encodeURIComponent` are never `%`. -/
theorem unreserved_ne_percent (c : Char) (h : isUnreservedECMA c = true) : c ≠ '%' := by
  intro hc; subst hc; simp [isUnreservedECMA] at h

/-- Unfolding `decodeChars` on a non-escape head character. -/
theorem decodeChars_cons_ne (c : Char) (t : List Char) (hn : c ≠ '%') :
    decodeChars (c :: t) = (decodeChars t).map (c :: ·) := by
  cases t with
  | nil => simp [decodeChars, hn]
  | cons a t2 =>
    cases t2 with
    | nil => simp [decodeChars, hn]
    | cons b t3 => simp [decodeChars, hn]

/-- Unfolding `decodeChars` on a well-formed percent escape. -/
theorem decodeChars_pct (h l : Char) (t : List Char) (hv lv : Nat)
    (hh : hexVal h = some hv) (hl : hexVal l = some lv) :
    decodeChars ('%' :: h :: l :: t) =
      (decodeChars t).map (Char.ofNat (16 * hv + lv) :: ·) := by
  simp [decodeChars, hh, hl]

/-- Percent-decoding inverts percent-encoding, character-list level. -/
theorem decodeChars_encodeList (l : List Char) (h : ∀ c ∈ l, c.toNat < 128) :
    decodeChars (encodeList l) = some l := by
  induction l with
  | nil => rfl
  | cons c cs ih =>
    have hc : c.toNat < 128 := h c (List.mem_cons_self c cs)
    have hcs : ∀ x ∈ cs, x.toNat < 128 := fun x hx => h x (List.mem_cons_of_mem c hx)
    by_cases hu : isUnreservedECMA c = true
    · have hne : c ≠ '%' := unreserved_ne_percent c hu
      rw [encodeList, encodeChar, if_pos hu, List.cons_append, List.nil_append,
        decodeChars_cons_ne c _ hne, ih hcs]
      rfl
    · rw [encodeList, encodeChar, if_neg hu]
      have h16 : c.toNat / 16 < 16 := by omega
      have h16' : c.toNat % 16 < 16 := Nat.mod_lt _ (by norm_num)
      simp only [List.cons_append, List.nil_append]
      rw [decodeChars_pct _ _ _ _ _ (hexVal_hexDigit _ h16) (hexVal_hexDigit _ h16'),
        ih hcs]
      simp [Nat.div_add_mod, Char.ofNat_toNat]

/-- `decodeURIComponent` inverts `encodeURIComponent` on ASCII input. -/
theorem decode_encode_uri (s : String) (h : ∀ c ∈ s.toList, c.toNat < 128) :
    decodeURIComponent (encodeURIComponent s) = some s := by
  cases s with
  | mk data =>
    unfold decodeURIComponent encodeURIComponent
    rw [show (String.mk (encodeList (String.mk data).toList)).toList
         = encodeList (String.mk data).toList from rfl]
    rw [decodeChars_encodeList _ h]
    rfl

/-- No pattern of `isPrivateIP` can match a hostname that starts with `[`,
the first character of every serialized IPv6 host. -/
theorem isPrivateIP_bracket (s : String) (t : List Char) (h : s.toList = '[' :: t) :
    isPrivateIP s = false := by
  simp only [String.toList] at h
  simp [isPrivateIP, lcEq, strIs, strLeads, range172, h, leadsWith, eqChars]

theorem getHdr_setHdr_self (hs : List (String × String)) (k v : String) :
    getHdr (setHdr hs k v) k = some v := by
  induction hs with
  | nil => simp [setHdr, getHdr]
  | cons p t ih =>
    by_cases hk : p.1 = k
    · simp [setHdr, getHdr, hk]
    · simp [setHdr, getHdr, hk, ih]

theorem getHdr_setHdr_ne (hs : List (String × String)) (k' v k : String)
    (h : k' ≠ k) : getHdr (setHdr hs k' v) k = getHdr hs k := by
  induction hs with
  | nil => simp [setHdr, getHdr, h]
  | cons p t ih =>
    by_cases hk : p.1 = k'
    · simp [setHdr, getHdr, hk, h]
    · simp [setHdr, getHdr, hk, ih]

theorem getHdr_applyFwd_ne (hs : List (String × String)) (k' : String)
    (o : Option String) (k : String) (h : k' ≠ k) :
    getHdr (applyFwd hs k' o) k = getHdr hs k := by
  cases o with
  | none => rfl
  | some v => exact getHdr_setHdr_ne hs k' v k h

theorem getHdr_applyFwd_isSome (hs : List (String × String)) (k' : String)
    (o : Option String) (k : String) (h : (getHdr hs k).isSome = true) :
    (getHdr (applyFwd hs k' o) k).isSome = true := by
  cases o with
  | none => exact h
  | some v =>
    by_cases hk : k' = k
    · subst hk; simp [applyFwd, getHdr_setHdr_self]
    · simpa [applyFwd, getHdr_setHdr_ne hs k' v k hk] using h

end Outlet

namespace Outlet

/-! ## Claim theorems -/

/-- C1 (code_bug evidence): the SSRF guard at the failing input.  The
pattern list of `isPrivateIP` contains no entry for the IPv4 link-local
range, so the hostname `169.254.169.254` (and any other `169.254.*`
literal) is classified public: `isPrivateIP` returns `false` and
`ssrfCheck` does not produce the 403 rejection the claim requires. -/
theorem isPrivateIP_linkLocal_eval :
    isPrivateIP "169.254.169.254" = false ∧
    ssrfCheck "169.254.169.254" = none ∧
    isPrivateIP "169.254.0.1" = false := by
  refine ⟨by decide, by decide, by decide⟩

/-- C2: a request whose `url` carries an IPv6 address literal parses to a
bracketed hostname (`[::1]`, `[fc00::1]`, `[fe80::1]`, ...).  Every pattern
of `isPrivateIP` tests the unbracketed spelling anchored at the start of
the string, so no bracketed hostname matches: `isPrivateIP` returns
`false` and the guard issues no 403 — IPv6 loopback, unique-local and
link-local literals are not blocked. -/
theorem ipv6_literal_not_blocked (addr : String) :
    isPrivateIP (ipv6Hostname addr) = false ∧
    ssrfCheck (ipv6Hostname addr) = none := by
  have h : (ipv6Hostname addr).toList = '[' :: (addr.toList ++ [']']) := by
    simp [ipv6Hostname, String.toList]
  have hfalse := isPrivateIP_bracket (ipv6Hostname addr) _ h
  exact ⟨hfalse, by simp [ssrfCheck, hfalse]⟩

/-- C3: the outbound header set of the direct-fetch strategy equals the
browser template overlaid with the forwarded caller headers, later wins:
(i) every template key is still present whatever was forwarded; (ii) a
forwarded `cookie`, `authorization` or `referer` appears under its outbound
name with the caller's value; (iii) keys other than the six forwarded ones
keep their template values; (iv) with nothing forwarded the set is exactly
the template. -/
theorem requestHeaders_overlay (inb : InboundHeaders) :
    (∀ k, (getHdr templateHeaders k).isSome = true →
      (getHdr (requestHeaders inb) k).isSome = true) ∧
    (∀ v, inb.cookie = some v → getHdr (requestHeaders inb) "Cookie" = some v) ∧
    (∀ v, inb.authorization = some v →
      getHdr (requestHeaders inb) "Authorization" = some v) ∧
    (∀ v, inb.referer = some v → getHdr (requestHeaders inb) "Referer" = some v) ∧
    (∀ k, k ∉ ["User-Agent", "Accept", "Accept-Language", "Cookie", "Referer",
        "Authorization"] →
      getHdr (requestHeaders inb) k = getHdr templateHeaders k) ∧
    (inb.userAgent = none → inb.accept = none → inb.acceptLanguage = none →
      inb.cookie = none → inb.referer = none → inb.authorization = none →
      requestHeaders inb = templateHeaders) := by
  refine ⟨?_, ?_, ?_, ?_, ?_, ?_⟩
  · intro k hk
    exact getHdr_applyFwd_isSome _ _ _ _ (getHdr_applyFwd_isSome _ _ _ _
      (getHdr_applyFwd_isSome _ _ _ _ (getHdr_applyFwd_isSome _ _ _ _
        (getHdr_applyFwd_isSome _ _ _ _ (getHdr_applyFwd_isSome _ _ _ _ hk)))))
  · intro v hv
    simp only [requestHeaders, hv]
    rw [getHdr_applyFwd_ne _ _ _ _ (by decide), getHdr_applyFwd_ne _ _ _ _ (by decide)]
    simp [applyFwd, getHdr_setHdr_self]
  · intro v hv
    simp only [requestHeaders, hv]
    simp [applyFwd, getHdr_setHdr_self]
  · intro v hv
    simp only [requestHeaders, hv]
    rw [getHdr_applyFwd_ne _ _ _ _ (by decide)]
    simp [applyFwd, getHdr_setHdr_self]
  · intro k hk
    simp only [List.mem_cons, List.mem_singleton, not_or] at hk
    obtain ⟨h1, h2, h3, h4, h5, h6, -⟩ := hk
    simp only [requestHeaders]
    rw [getHdr_applyFwd_ne _ _ _ _ (Ne.symm h6), getHdr_applyFwd_ne _ _ _ _ (Ne.symm h5),
      getHdr_applyFwd_ne _ _ _ _ (Ne.symm h4), getHdr_applyFwd_ne _ _ _ _ (Ne.symm h3),
      getHdr_applyFwd_ne _ _ _ _ (Ne.symm h2), getHdr_applyFwd_ne _ _ _ _ (Ne.symm h1)]
  · intro h1 h2 h3 h4 h5 h6
    simp [requestHeaders, h1, h2, h3, h4, h5, h6, applyFwd]

/-- C3 witness: a caller forwarding a cookie and an authorization header.
The outbound set keeps a template default (`Accept`) and carries the
caller's values. -/
theorem requestHeaders_overlay_witness :
    (getHdr (requestHeaders ⟨none, none, none, some "sid=1", none, some "Bearer t"⟩)
        "Cookie" = some "sid=1") ∧
    (getHdr (requestHeaders ⟨none, none, none, some "sid=1", none, some "Bearer t"⟩)
        "Authorization" = some "Bearer t") ∧
    (getHdr (requestHeaders ⟨none, none, none, some "sid=1", none, some "Bearer t"⟩)
        "Accept").isSome = true := by
  refine ⟨(requestHeaders_overlay _).2.1 _ rfl,
    (requestHeaders_overlay _).2.2.1 _ rfl,
    (requestHeaders_overlay _).1 "Accept" (by decide)⟩

/-- C4: on every exit path of the serverless render handler — whatever
outcome the try/catch decided and whatever the close operations do — the
`finally` block attempts to close the page exactly when one was opened and
the browser exactly when one was launched (a page-close failure never
prevents the browser close), the block itself never throws, each close
failure is logged as a warning, and the response emitted is always the
original outcome. -/
theorem browserCleanup_always_runs (o : Outcome) (env : CleanupEnv) :
    (handlerResult o env).1 = o ∧
    (handlerResult o env).2.pageCloseAttempted = env.pageOpened ∧
    (handlerResult o env).2.browserCloseAttempted = env.browserOpened ∧
    (∀ e, runCleanup env ≠ Except.error e) ∧
    (handlerResult o env).2.logs =
      (if env.pageOpened && env.pageCloseFails then
        ["Warning: Could not close: close failed"] else []) ++
      (if env.browserOpened && env.browserCloseFails then
        ["Warning: Could not close: close failed"] else []) := by
  rcases env with ⟨p, b, pf, bf⟩
  cases p <;> cases b <;> cases pf <;> cases bf <;>
    simp [handlerResult, runCleanup, tryCloseLogged, closeOp]

/-- C5: the error classifier is total and yields exactly one of the seven
classifications; each listed condition (taken in the source's test order)
maps to its status — navigation timeout 504, DNS resolution failure 404,
refused connection 503, aborted request 403, automation-protocol error 502,
page/browser handle closed 408 — and an error matching none of the
conditions defaults to 500. -/
theorem classifyError_table :
    (∀ m, hasSubstr m "Navigation timeout" = true → (classifyError m).1 = 504) ∧
    (∀ m, hasSubstr m "Navigation timeout" = false →
      hasSubstr m "net::ERR_NAME_NOT_RESOLVED" = true → (classifyError m).1 = 404) ∧
    (∀ m, hasSubstr m "Navigation timeout" = false →
      hasSubstr m "net::ERR_NAME_NOT_RESOLVED" = false →
      hasSubstr m "net::ERR_CONNECTION_REFUSED" = true → (classifyError m).1 = 503) ∧
    (∀ m, hasSubstr m "Navigation timeout" = false →
      hasSubstr m "net::ERR_NAME_NOT_RESOLVED" = false →
      hasSubstr m "net::ERR_CONNECTION_REFUSED" = false →
      hasSubstr m "net::ERR_ABORTED" = true → (classifyError m).1 = 403) ∧
    (∀ m, hasSubstr m "Navigation timeout" = false →
      hasSubstr m "net::ERR_NAME_NOT_RESOLVED" = false →
      hasSubstr m "net::ERR_CONNECTION_REFUSED" = false →
      hasSubstr m "net::ERR_ABORTED" = false →
      hasSubstr m "Protocol error" = true → (classifyError m).1 = 502) ∧
    (∀ m, hasSubstr m "Navigation timeout" = false →
      hasSubstr m "net::ERR_NAME_NOT_RESOLVED" = false →
      hasSubstr m "net::ERR_CONNECTION_REFUSED" = false →
      hasSubstr m "net::ERR_ABORTED" = false →
      hasSubstr m "Protocol error" = false →
      hasSubstr m "Target page, context or browser has been closed" = true →
      (classifyError m).1 = 408) ∧
    (∀ m, hasSubstr m "Navigation timeout" = false →
      hasSubstr m "net::ERR_NAME_NOT_RESOLVED" = false →
      hasSubstr m "net::ERR_CONNECTION_REFUSED" = false →
      hasSubstr m "net::ERR_ABORTED" = false →
      hasSubstr m "Protocol error" = false →
      hasSubstr m "Target page, context or browser has been closed" = false →
      (classifyError m).1 = 500) ∧
    (∀ m, (classifyError m).1 ∈ [504, 404, 503, 403, 502, 408, 500]) := by
  refine ⟨?_, ?_, ?_, ?_, ?_, ?_, ?_, ?_⟩
  · intro m h1; simp [classifyError, h1]
  · intro m h1 h2; simp [classifyError, h1, h2]
  · intro m h1 h2 h3; simp [classifyError, h1, h2, h3]
  · intro m h1 h2 h3 h4; simp [classifyError, h1, h2, h3, h4]
  · intro m h1 h2 h3 h4 h5; simp [classifyError, h1, h2, h3, h4, h5]
  · intro m h1 h2 h3 h4 h5 h6; simp [classifyError, h1, h2, h3, h4, h5, h6]
  · intro m h1 h2 h3 h4 h5 h6; simp [classifyError, h1, h2, h3, h4, h5, h6]
  · intro m
    unfold classifyError
    split_ifs <;> simp

/-- C5 witness: the classifier at three concrete puppeteer error messages. -/
theorem classifyError_table_witness :
    (classifyError "net::ERR_NAME_NOT_RESOLVED at https://nonexistent.invalid").1 = 404 ∧
    (classifyError "Navigation timeout of 25000 ms exceeded").1 = 504 ∧
    (classifyError "some unanticipated failure").1 = 500 := by
  refine ⟨classifyError_table.2.1 _ (by decide) (by decide),
    classifyError_table.1 _ (by decide),
    classifyError_table.2.2.2.2.2.2.1 _ (by decide) (by decide) (by decide)
      (by decide) (by decide) (by decide)⟩

/-- C6 (round-trip law): a qualifying attribute holding a present,
non-`data:` value that resolves to the absolute URL `abs` (ASCII, as the
URL serializer emits) is replaced by exactly
`proxyBase ++ encodeURIComponent abs`, and percent-decoding that query
parameter reproduces `abs` exactly. -/
theorem rewriteUrls_roundTrip (resolve : String → Option String) (pB : String)
    (doc : List Elem) (i : Nat) (e : Elem) (v abs : String)
    (he : doc[i]? = some e)
    (htag : e.tag = .a ∨ e.tag = .form ∨ e.tag = .img ∨ e.tag = .script ∨ e.tag = .link)
    (hv : e.attr? = some v) (hne : strIsEmpty v = false)
    (hdata : strLeads v "data:" = false)
    (hres : resolve v = some abs)
    (hascii : ∀ c ∈ abs.toList, c.toNat < 128) :
    (rewriteUrls resolve pB doc)[i]? =
      some ⟨e.tag, some (pB ++ encodeURIComponent abs)⟩ ∧
    decodeURIComponent (encodeURIComponent abs) = some abs := by
  constructor
  · rw [rewriteUrls, List.getElem?_map, he]
    simp only [Option.map_some', hv]
    rcases htag with h | h | h | h | h <;>
      simp [h, rewriteAttr, hne, hdata, hres]
  · exact decode_encode_uri abs hascii

/-- C6 witness: an `img[src]` of `photo.png` on `https://example.com/` is
rewritten to the proxied URL and the query parameter decodes back. -/
theorem rewriteUrls_roundTrip_witness :
    (rewriteUrls resolveEx (proxyBaseOf "https" "outletbackend.onrender.com")
        [⟨Tag.img, some "photo.png"⟩])[0]? =
      some ⟨Tag.img, some (proxyBaseOf "https" "outletbackend.onrender.com" ++
        encodeURIComponent "https://example.com/photo.png")⟩ ∧
    decodeURIComponent (encodeURIComponent "https://example.com/photo.png") =
      some "https://example.com/photo.png" :=
  rewriteUrls_roundTrip resolveEx (proxyBaseOf "https" "outletbackend.onrender.com")
    [⟨Tag.img, some "photo.png"⟩] 0 ⟨Tag.img, some "photo.png"⟩ "photo.png"
    "https://example.com/photo.png" rfl (by simp) rfl (by decide) (by decide)
    (by decide) (by decide)

/-- C7 counterexample: an `a[href]` whose value is a `data:` URI is NOT left
unchanged — the `a[href]` pass has no `data:` test, so the value is
rewritten to the proxied form, unlike `img[src]`/`script[src]`/`link[href]`. -/
theorem rewriteUrls_data_href_rewritten :
    (rewriteUrls resolveEx (proxyBaseOf "https" "outletbackend.onrender.com")
        [⟨Tag.a, some "data:text/plain,x"⟩])[0]? =
      some ⟨Tag.a, some "https://outletbackend.onrender.com/proxy?url=data%3Atext%2Fplain%2Cx"⟩ ∧
    "https://outletbackend.onrender.com/proxy?url=data%3Atext%2Fplain%2Cx" ≠
      "data:text/plain,x" := by
  refine ⟨by decide, by decide⟩

/-- C7 amended: only the `img[src]`, `script[src]` and `link[href]` passes
skip `data:` URIs; the `a[href]` and `form[action]` passes rewrite any
present value that resolves, `data:` URIs included. -/
theorem rewriteUrls_data_policy (resolve : String → Option String) (pB : String)
    (doc : List Elem) (i : Nat) (e : Elem) (v : String)
    (he : doc[i]? = some e) (hv : e.attr? = some v)
    (hdata : strLeads v "data:" = true) :
    ((e.tag = .img ∨ e.tag = .script ∨ e.tag = .link) →
      (rewriteUrls resolve pB doc)[i]? = some e) ∧
    ((e.tag = .a ∨ e.tag = .form) → ∀ abs, resolve v = some abs →
      (rewriteUrls resolve pB doc)[i]? =
        some ⟨e.tag, some (pB ++ encodeURIComponent abs)⟩) := by
  have hne : strIsEmpty v = false :=
    strLeads_not_empty v "data:" 'd' ['a', 't', 'a', ':'] rfl hdata
  constructor
  · intro htag
    rw [rewriteUrls, List.getElem?_map, he]
    simp only [Option.map_some', hv]
    obtain ⟨tg, at?⟩ := e
    simp only [Elem.mk.injEq] at hv ⊢
    simp only at htag
    rcases htag with h | h | h <;> subst h <;>
      simp [rewriteAttr, hdata, hv]
  · intro htag abs hres
    rw [rewriteUrls, List.getElem?_map, he]
    simp only [Option.map_some', hv]
    rcases htag with h | h <;> simp [h, rewriteAttr, hne, hres]

/-- C7 amended witness: a `data:` image source is untouched while a `data:`
anchor href is proxied. -/
theorem rewriteUrls_data_policy_witness :
    (rewriteUrls resolveEx (proxyBaseOf "https" "outletbackend.onrender.com")
        [⟨Tag.img, some "data:image/png;base64,AA"⟩])[0]? =
      some ⟨Tag.img, some "data:image/png;base64,AA"⟩ ∧
    (rewriteUrls resolveEx (proxyBaseOf "https" "outletbackend.onrender.com")
        [⟨Tag.a, some "data:text/plain,x"⟩])[0]? =
      some ⟨Tag.a, some (proxyBaseOf "https" "outletbackend.onrender.com" ++
        encodeURIComponent "data:text/plain,x")⟩ :=
  ⟨(rewriteUrls_data_policy resolveEx (proxyBaseOf "https" "outletbackend.onrender.com")
      [⟨Tag.img, some "data:image/png;base64,AA"⟩] 0 ⟨Tag.img, some "data:image/png;base64,AA"⟩
      "data:image/png;base64,AA" rfl rfl (by decide)).1 (Or.inl rfl),
   (rewriteUrls_data_policy resolveEx (proxyBaseOf "https" "outletbackend.onrender.com")
      [⟨Tag.a, some "data:text/plain,x"⟩] 0 ⟨Tag.a, some "data:text/plain,x"⟩
      "data:text/plain,x" rfl rfl (by decide)).2 (Or.inl rfl)
      "data:text/plain,x" (by decide)⟩

/-- C8: the rewrite pass is total — it always returns a document of the
same length, an attribute value the URL parser rejects (`resolve` = `none`,
the per-attribute `try/catch`) is left untouched, and elements without the
selected attribute are untouched; no malformed value aborts the pass. -/
theorem rewriteUrls_total (resolve : String → Option String) (pB : String)
    (doc : List Elem) :
    (rewriteUrls resolve pB doc).length = doc.length ∧
    (∀ (i : Nat) (e : Elem) (v : String), doc[i]? = some e → e.attr? = some v →
      resolve v = none → (rewriteUrls resolve pB doc)[i]? = some e) ∧
    (∀ (i : Nat) (e : Elem), doc[i]? = some e → e.attr? = none →
      (rewriteUrls resolve pB doc)[i]? = some e) := by
  refine ⟨by simp [rewriteUrls], ?_, ?_⟩
  · intro i e v he hv hres
    rw [rewriteUrls, List.getElem?_map, he]
    simp only [Option.map_some', hv]
    obtain ⟨tg, at?⟩ := e
    simp only [Elem.mk.injEq] at hv ⊢
    cases tg <;> simp [rewriteAttr, hres, hv]
  · intro i e he hv
    rw [rewriteUrls, List.getElem?_map, he]
    simp [hv]

/-- C8 witness: with a resolver rejecting everything, a two-element document
keeps its length and its malformed link untouched. -/
theorem rewriteUrls_total_witness :
    (rewriteUrls (fun _ => none) (proxyBaseOf "http" "localhost:10000")
        [⟨Tag.a, some "http://"⟩, ⟨Tag.link, some "style.css"⟩]).length = 2 ∧
    (rewriteUrls (fun _ => none) (proxyBaseOf "http" "localhost:10000")
        [⟨Tag.a, some "http://"⟩, ⟨Tag.link, some "style.css"⟩])[0]? =
      some ⟨Tag.a, some "http://"⟩ :=
  ⟨(rewriteUrls_total (fun _ => none) (proxyBaseOf "http" "localhost:10000")
      [⟨Tag.a, some "http://"⟩, ⟨Tag.link, some "style.css"⟩]).1,
   (rewriteUrls_total (fun _ => none) (proxyBaseOf "http" "localhost:10000")
      [⟨Tag.a, some "http://"⟩, ⟨Tag.link, some "style.css"⟩]).2.1 0
      ⟨Tag.a, some "http://"⟩ "http://" rfl rfl rfl⟩

/-- C9 counterexample: `OPTIONS` is a non-GET method, yet the serverless
handler answers it 200 as a CORS preflight before the method check — it
does not receive the 405 / `allowedMethods` response the claim requires
for every non-GET method. -/
theorem methodDispatch_options_cex :
    methodDispatch "OPTIONS" = DispatchResult.corsPreflight 200 ∧
    "OPTIONS" ≠ "GET" ∧
    methodDispatch "OPTIONS" ≠ DispatchResult.methodNotAllowed 405 ["GET"] := by
  refine ⟨by decide, by decide, by decide⟩

/-- C9 amended: a method that is neither `GET` nor `OPTIONS` receives 405
with `allowedMethods: ['GET']` from the serverless handler, while `OPTIONS`
receives the 200 CORS-preflight response.  On the persistent Express
server, where only `app.get('/learn')` is registered, `HEAD` is dispatched
to the learn handler itself (Express aliases head to get) and any non-GET
method other than `HEAD` and `OPTIONS` falls through to the 404 handler. -/
theorem methodDispatch_nonGet (m : String) (h1 : m ≠ "GET") (h2 : m ≠ "OPTIONS") :
    methodDispatch m = DispatchResult.methodNotAllowed 405 ["GET"] ∧
    (m ≠ "HEAD" → expressLearnStatus m = some 404) ∧
    expressLearnStatus "HEAD" = none ∧
    methodDispatch "OPTIONS" = DispatchResult.corsPreflight 200 := by
  refine ⟨by simp [methodDispatch, h1, h2], ?_, by decide, by decide⟩
  intro h3
  simp [expressLearnStatus, h1, h2, h3]

/-- C9 amended witness: a `POST` request. -/
theorem methodDispatch_nonGet_witness :
    methodDispatch "POST" = DispatchResult.methodNotAllowed 405 ["GET"] ∧
    expressLearnStatus "POST" = some 404 ∧
    expressLearnStatus "HEAD" = none ∧
    methodDispatch "OPTIONS" = DispatchResult.corsPreflight 200 := by
  have h := methodDispatch_nonGet "POST" (by decide) (by decide)
  exact ⟨h.1, h.2.1 (by decide), h.2.2.1, h.2.2.2⟩

/-- C10: with throttling enabled and the default configuration
`min = 100, max = 500`, the waited delay is the integer
`⌊r * (max - min)⌋ + min`, and for every random sample `0 ≤ r < 1` it
satisfies `100 ≤ d < 500`; with throttling disabled the wait is exactly 0
(and the computation is a total function — it cannot throw). -/
theorem applyThrottling_bounds (r : ℚ) (h0 : 0 ≤ r) (h1 : r < 1) :
    applyThrottling true r 100 500 = throttleDelay r 100 500 ∧
    100 ≤ applyThrottling true r 100 500 ∧
    applyThrottling true r 100 500 < 500 ∧
    applyThrottling false r 100 500 = 0 := by
  have hd : applyThrottling true r 100 500 = ⌊r * 400⌋ + 100 := by
    simp [applyThrottling, throttleDelay]
    norm_num
  refine ⟨rfl, ?_, ?_, rfl⟩
  · rw [hd]
    have hfl : (0 : ℤ) ≤ ⌊r * 400⌋ := Int.floor_nonneg.mpr (by positivity)
    omega
  · rw [hd]
    have hlt : r * 400 < ((400 : ℤ) : ℚ) := by
      push_cast
      nlinarith
    have hfl : ⌊r * 400⌋ < 400 := Int.floor_lt.mpr hlt
    omega

/-- C10 witness: the sample `r = 1/2` yields a delay of 300 ms within the
bounds, and 0 when disabled. -/
theorem applyThrottling_bounds_witness :
    applyThrottling true (1/2 : ℚ) 100 500 = throttleDelay (1/2 : ℚ) 100 500 ∧
    100 ≤ applyThrottling true (1/2 : ℚ) 100 500 ∧
    applyThrottling true (1/2 : ℚ) 100 500 < 500 ∧
    applyThrottling false (1/2 : ℚ) 100 500 = 0 :=
  applyThrottling_bounds (1/2 : ℚ) (by norm_num) (by norm_num)

end Outlet
